import Mathlib

/-!
Verification of the column-typing core of VerticaPy
(`verticapy/core/vdataframe/_typing.py`): the transformation chain of a
`vDataColumn`, the `astype` resolver with its format-inference probe,
version gate and validation probe, and the category predicates.

Python strings are embedded as `String`, char-level operations work on
`String.data` so that every definition is executable and kernel-reducible.
Helpers that the repository imports from modules absent from the sources
(`guess_sep`, `to_sql_dtype`, `to_category`, `clean_query`,
`vertica_version`, `verticapy.sql.flex.isvmap`) are modelled from the
specification; each carries a doc comment saying so.
-/

set_option maxRecDepth 20000

/-! ### Character and string primitives (Python semantics) -/

/-- ASCII lower-casing of one character, as Python `str.lower` acts on the
ASCII type names handled here. -/
def pyCharLower (c : Char) : Char :=
  if 'A' ≤ c ∧ c ≤ 'Z' then Char.ofNat (c.toNat + 32) else c

/-- Python `str.lower` (ASCII). -/
def pyLower (s : String) : String := String.mk (s.data.map pyCharLower)

/-- Python `str.strip`: drop leading and trailing whitespace. -/
def pyStrip (s : String) : String :=
  String.mk (((s.data.dropWhile Char.isWhitespace).reverse.dropWhile
    Char.isWhitespace).reverse)

/-- Python `s[0:n] == pre` / `s.startswith(pre)` (both agree, since a Python
slice is truncated at the string's length). -/
def pyStartswith (s pre : String) : Bool :=
  s.data.take pre.data.length == pre.data

/-- Python `s[0]` (only used under a length guard). -/
def pyFirst (s : String) : Char := s.data.headD ' '

/-- Python `s[-1]` (only used under a length guard). -/
def pyLast (s : String) : Char := s.data.getLastD ' '

/-- Python `s[0:n]` as a string. -/
def pyTake (s : String) (n : Nat) : String := String.mk (s.data.take n)

/-- Collapse runs of spaces to a single space. -/
def collapseSpaces : List Char → List Char
  | [] => []
  | [c] => [c]
  | c :: d :: t =>
    if c = ' ' ∧ d = ' ' then collapseSpaces (d :: t)
    else c :: collapseSpaces (d :: t)

/-- Python `repr` of a string as rendered by `str(KeyError(key))`: single
quotes, or double quotes when the string holds a single quote and no
double quote (escape-triggering keys cannot arise from the cleaned
`astype` templates, which contain neither backslashes nor newlines). -/
def pyRepr (s : String) : String :=
  if s.data.contains '\'' && !(s.data.contains '"') then "\"" ++ s ++ "\""
  else "'" ++ s ++ "'"

/-- Non-overlapping count of the two-character pattern `[a, b]`, Python
`s.count(x + y)` for one-character `x`, `y`. -/
def countPair (a b : Char) : List Char → Nat
  | [] => 0
  | [_] => 0
  | x :: y :: t =>
    if x = a ∧ y = b then 1 + countPair a b t else countPair a b (y :: t)

/-- Does `pat` occur as a contiguous sublist? -/
def hasSublist (pat : List Char) : List Char → Bool
  | [] => pat.isEmpty
  | c :: t => pat.isPrefixOf (c :: t) || hasSublist pat t

/-- Python `pat in s`: substring test. -/
def hasSubStr (s pat : String) : Bool := hasSublist pat.data s.data

/-- Number of occurrences of the character `c` in `s`. -/
def countChar (s : String) (c : Char) : Nat := s.data.count c

/-! ### Helpers of the repository that are absent from the sources -/

/-- Modelled from the spec: `to_sql_dtype`
(`verticapy._utils._sql._cast`) is absent from the sources; the spec's
step 1 for `cast` is "Normalize `requested_type` (trim, lower, ...)",
so the string branch is modelled as lower-casing then stripping. -/
def to_sql_dtype (dtype : String) : String := pyStrip (pyLower dtype)

/-- Modelled from the spec: the fixed priority-ordered delimiter candidate
list of `guess_sep` (`verticapy._utils._parsers`), absent from the
sources. The spec fixes `,` before `;` and shows `|` as a candidate. -/
def sepCandidates : List Char := [',', '|', ';']

/-- Largest occurrence count over the delimiter candidates. -/
def maxSepCount (s : String) : Nat :=
  max (countChar s ',') (max (countChar s '|') (countChar s ';'))

/-- Modelled from the spec: `guess_sep` is absent from the sources; per the
spec it returns "the first candidate whose occurrence count in the sample
is non-zero and maximal" from the fixed priority-ordered list, defaulting
to the first candidate when no candidate occurs. -/
def guessSepChar (s : String) : Char :=
  if maxSepCount s = 0 then ','
  else if countChar s ',' = maxSepCount s then ','
  else if countChar s '|' = maxSepCount s then '|'
  else ';'

/-- `guess_sep` as the one-character separator string used in templates. -/
def guess_sep (s : String) : String := String.singleton (guessSepChar s)

/-- Modelled from the spec: `to_category` (`verticapy._utils._sql._cast`)
is absent from the sources. The spec's classification table:
"`array`→array-is-not-a-category→keep text unless vmap, `vmap`→`vmap`,
numeric/int/float/date/text/binary/spatial/uuid families mapped directly,
unknown → `undefined`". Inputs are already normalized by `to_sql_dtype`. -/
def to_category (ctype : String) : String :=
  if pyStartswith ctype "vmap" = true then "vmap"
  else if pyStartswith ctype "array" = true then "text"
  else if pyStartswith ctype "date" = true ∨ pyStartswith ctype "timestamp" = true ∨
      ctype = "time" ∨ ctype = "smalldatetime" ∨ pyStartswith ctype "interval" = true then "date"
  else if pyStartswith ctype "int" = true ∨ pyStartswith ctype "bool" = true ∨
      pyStartswith ctype "bigint" = true ∨ pyStartswith ctype "smallint" = true ∨
      pyStartswith ctype "tinyint" = true then "int"
  else if pyStartswith ctype "float" = true ∨ pyStartswith ctype "double" = true ∨
      pyStartswith ctype "numeric" = true ∨ pyStartswith ctype "decimal" = true ∨
      pyStartswith ctype "real" = true ∨ pyStartswith ctype "money" = true then "float"
  else if pyStartswith ctype "varchar" = true ∨ pyStartswith ctype "char" = true ∨
      ctype = "text" then "text"
  else if pyStartswith ctype "varbinary" = true ∨ pyStartswith ctype "binary" = true ∨
      pyStartswith ctype "bytea" = true then "binary"
  else if pyStartswith ctype "geometry" = true ∨ pyStartswith ctype "geography" = true then "spatial"
  else if pyStartswith ctype "uuid" = true then "uuid"
  else "undefined"

/-- Modelled from the spec: `clean_query`
(`verticapy._utils._sql._format`) is absent from the sources; the spec
treats SQL as opaque text, so it is modelled as whitespace normalization:
tabs and newlines become spaces, runs of spaces collapse, ends stripped
(none of the templates contains an SQL comment marker). -/
def clean_query (q : String) : String :=
  pyStrip (String.mk (collapseSpaces
    (q.data.map (fun ch => if ch = '\n' ∨ ch = '\t' then ' ' else ch))))

/-- Errors raised inside `astype` or surfaced to its caller; the three
`format*` constructors are the exceptions Python `str.format` raises. -/
inductive PyErr where
  | versionError (msg : String)
  | queryError (msg : String)
  | conversionError (msg : String)
  | formatKeyError (key : String)
  | formatValueError (msg : String)
  | formatIndexError
deriving DecidableEq, Repr

/-- Python `str(e)` on the modelled errors (`str` of a `KeyError` is the
`repr` of its key). -/
def pyErrMsg : PyErr → String
  | PyErr.versionError m => m
  | PyErr.queryError m => m
  | PyErr.conversionError m => m
  | PyErr.formatKeyError k => pyRepr k
  | PyErr.formatValueError m => m
  | PyErr.formatIndexError =>
    "Replacement index 1 out of range for positional args tuple"

/-- Python `str.format` scanning with one positional argument, `used`
tracking auto-numbering: `\x7b\x7d` substitutes the argument (a second
occurrence raises the positional `IndexError`), doubled braces escape to
a literal brace, a non-empty replacement field raises the
keyword-lookup `KeyError` carrying the field text (no template built by
`astype` contains a numeric field), and an unmatched brace raises the
corresponding `ValueError`. -/
def pyFormatScan (arg : List Char) : Bool → List Char → Except PyErr (List Char)
  | _, [] => Except.ok []
  | used, '{' :: '{' :: t => (fun r => '{' :: r) <$> pyFormatScan arg used t
  | used, '}' :: '}' :: t => (fun r => '}' :: r) <$> pyFormatScan arg used t
  | used, '{' :: '}' :: t =>
    if used then Except.error PyErr.formatIndexError
    else (fun r => arg ++ r) <$> pyFormatScan arg true t
  | _, '{' :: t =>
    if (t.dropWhile (fun ch => ch != '}')).isEmpty then
      Except.error (PyErr.formatValueError
        "Single '\x7b' encountered in format string")
    else
      Except.error (PyErr.formatKeyError
        (String.mk (t.takeWhile (fun ch => ch != '}'))))
  | _, '}' :: _ =>
    Except.error (PyErr.formatValueError
      "Single '\x7d' encountered in format string")
  | used, c :: t => (fun r => c :: r) <$> pyFormatScan arg used t

/-- Python `transformation_2.format(self._alias)` as called on the
cleaned template (source line 264): the substituted expression, or the
formatting exception — raised, in particular, by the stray braces of
`collection_open='\x7b'` in the brace-bracket array template. -/
def pyFormat (tmpl arg : String) : Except PyErr String :=
  (fun r => String.mk r) <$> pyFormatScan arg.data false tmpl.data

/-- Message of the modelled version-gate error. -/
def versionErrMsg (r0 r1 r2 : Nat) : String :=
  "UnsupportedEngineVersion: this cast requires engine version " ++
    toString r0 ++ "." ++ toString r1 ++ "." ++ toString r2 ++ " or higher"

/-- Modelled from the spec: `vertica_version(condition=...)`
(`verticapy._utils._sql._vertica_version`) is absent from the sources.
Per the spec an `UnsupportedEngineVersion` failure is "surfaced before
issuing the probe, to avoid an engine round trip", and §5 allows only the
two probe round trips, so the cached engine version triple is compared
lexicographically with the condition without an engine query, raising
when the minimum is not met. -/
def vertica_version_check (v : Nat × Nat × Nat) (condition : List Nat) :
    Except PyErr Unit :=
  let r0 := condition.getD 0 0
  let r1 := condition.getD 1 0
  let r2 := condition.getD 2 0
  if r0 < v.1 ∨ (v.1 = r0 ∧ (r1 < v.2.1 ∨ (v.2.1 = r1 ∧ r2 ≤ v.2.2))) then
    Except.ok ()
  else Except.error (PyErr.versionError (versionErrMsg r0 r1 r2))

/-- Modelled from the spec: `verticapy.sql.flex.isvmap` is absent from the
sources (only its call site in `vDCTyping.isvmap` is shown). The spec
lists `is_map` among the "pure reads derived from `category`/
`declared_type`" that issue no engine query and never fail; since the
chain category is already tested by the caller, the helper is modelled as
the pure fallback returning `false`. -/
def flex_isvmap (_column _expr : String) : Bool := false

/-! ### Data model -/

/-- One transformation-chain entry: `(expression template, declared SQL
type, category)`, matching the tuples stored in `vDataColumn._transf`. -/
structure TransfEntry where
  expr : String
  dtype : String
  cat : String
deriving DecidableEq, Repr

/-- Default entry used only to totalize `List.getLastD`; the chain is never
empty after construction. -/
def defEntry : TransfEntry := ⟨"", "", "undefined"⟩

/-- A `vDataColumn`: its alias (`self._alias`), the owning relation's
current SQL (`self._parent._genSQL()`), and the transformation chain
(`self._transf`). -/
structure VDataColumn where
  colAlias : String
  parentSQL : String
  transf : List TransfEntry
deriving DecidableEq, Repr

/-- The chain's last entry, defining the current observable type/category. -/
def VDataColumn.lastEntry (c : VDataColumn) : TransfEntry :=
  c.transf.getLastD defEntry

/-- `vDCTyping.category`: `self._transf[-1][2]`. -/
def VDataColumn.category (c : VDataColumn) : String := c.lastEntry.cat

/-- `vDCTyping.ctype`: `self._transf[-1][1].lower()`. -/
def VDataColumn.ctype (c : VDataColumn) : String := pyLower c.lastEntry.dtype

/-- `vDCTyping.isarray`: `self.ctype()[0:5].lower() == "array"`. -/
def VDataColumn.isarray (c : VDataColumn) : Bool :=
  pyLower (pyTake c.ctype 5) == "array"

/-- `vDCTyping.isbool`: `self.ctype()[0:4] == "bool"`. -/
def VDataColumn.isbool (c : VDataColumn) : Bool := pyTake c.ctype 4 == "bool"

/-- `vDCTyping.isdate`: `self.category() == "date"`. -/
def VDataColumn.isdate (c : VDataColumn) : Bool := c.category == "date"

/-- `vDCTyping.isnum`: `self.category() in ("float", "int")`. -/
def VDataColumn.isnum (c : VDataColumn) : Bool :=
  c.category == "float" || c.category == "int"

/-- `vDCTyping.isvmap`: `self.category() == "vmap" or
isvmap(column=self._alias, expr=self._parent._genSQL())`. -/
def VDataColumn.isvmap (c : VDataColumn) : Bool :=
  c.category == "vmap" || flex_isvmap c.colAlias c.parentSQL

/-- The engine collaborator (`_executeSQL` plus the cached version triple):
the format-inference probe answers with a scalar, the validation probe
with success or the engine's error text, both keyed by the SQL sent. -/
structure Engine where
  version : Nat × Nat × Nat
  fetchLongest : String → Except String String
  validate : String → Except String Unit

/-- Outcome of one `astype` call: the column's chain after the call, the
returned value (`Except.ok ()` models `return self._parent`, an error
models the raised `ConversionError`), and the engine queries issued in
order. -/
structure AstypeResult where
  transf : List TransfEntry
  res : Except PyErr Unit
  queries : List String

/-! ### SQL text built by `astype` (whitespace as in the source) -/

/-- `n` spaces, mirroring the indentation inside the source's
triple-quoted strings. -/
def sp (n : Nat) : String := String.mk (List.replicate n ' ')

/-- Template of the `MAPJSONEXTRACTOR` branch. -/
def mapjsonTemplate : String :=
  "MAPJSONEXTRACTOR(\x7b\x7d \n" ++ sp 52 ++ "USING PARAMETERS flatten_maps=false)"

/-- `", header_names='...'"` when the requested type is a compound
`vmap(...)`, else empty. -/
def headerNames (dtype : String) : String :=
  if 4 < dtype.data.length ∧ pyStartswith dtype "vmap(" = true ∧ pyLast dtype = ')' then
    ", header_names='" ++ String.mk ((dtype.data.drop 5).dropLast) ++ "'"
  else ""

/-- Template of the `MAPDELIMITEDEXTRACTOR` branch. -/
def mapDelimitedTemplate (sep hdr : String) : String :=
  "MAPDELIMITEDEXTRACTOR(\x7b\x7d \n" ++ sp 60 ++ "USING PARAMETERS \n" ++ sp 60 ++
    "delimiter='" ++ sep ++ "'\n" ++ sp 60 ++ hdr ++ ")"

/-- The `collection_open`/`collection_close` parameters inferred from the
sampled longest string. -/
def collectionBrackets (b : String) : String × String :=
  if 2 < b.data.length ∧ ((pyFirst b = '(' ∧ pyLast b = ')') ∨
      (pyFirst b = '{' ∧ pyLast b = '}')) then
    (", collection_open='" ++ String.singleton (pyFirst b) ++ "'",
     ", collection_close='" ++ String.singleton (pyLast b) ++ "'")
  else ("", "")

/-- The `collection_null_element` parameter: present when the sample,
spaces removed, contains a doubled separator. -/
def collectionNullElement (b : String) (sepc : Char) : String :=
  if 0 < countPair sepc sepc (b.data.filter (fun ch => ch != ' ')) then
    ", collection_null_element=''"
  else ""

/-- Template of the `STRING_TO_ARRAY` branch. -/
def stringToArrayTemplate (sep copen cclose cnull : String) : String :=
  "\n" ++ sp 24 ++ "STRING_TO_ARRAY(\x7b\x7d \n" ++ sp 40 ++ "USING PARAMETERS \n" ++
    sp 40 ++ "collection_delimiter='" ++ sep ++ "'\n" ++ sp 40 ++ copen ++ "\n" ++
    sp 40 ++ cclose ++ "\n" ++ sp 40 ++ cnull ++ ")"

/-- Template of the `MAPTOSTRING(...)::<char type>` branch. -/
def maptostringCastTemplate (dtype : String) : String :=
  "MAPTOSTRING(\x7b\x7d \n" ++ sp 51 ++ "USING PARAMETERS \n" ++ sp 51 ++
    "canonical_json=false)::" ++ dtype

/-- Template of the canonical-JSON `MAPTOSTRING` branch. -/
def maptostringJsonTemplate : String :=
  "MAPTOSTRING(\x7b\x7d USING PARAMETERS canonical_json=true)"

/-- Template of the `TO_JSON` branch. -/
def toJsonTemplate : String := "TO_JSON(\x7b\x7d)"

/-- Template of the plain-cast branch `{}::dtype`. -/
def plainCastTemplate (dtype : String) : String := "\x7b\x7d::" ++ dtype

/-- The format-inference probe query (`ORDER BY LENGTH(col) DESC LIMIT 1`). -/
def biggestStrQuery (al sql : String) : String :=
  "\n" ++ sp 20 ++ "SELECT \n" ++ sp 24 ++ al ++ " \n" ++ sp 20 ++ "FROM " ++ sql ++
    " \n" ++ sp 20 ++ "ORDER BY LENGTH(" ++ al ++ ") DESC \n" ++ sp 20 ++ "LIMIT 1"

/-- The validation probe query (`... WHERE col IS NOT NULL LIMIT 20`). -/
def validationQuery (expr al sql : String) : String :=
  "\n" ++ sp 16 ++ "SELECT \n" ++ sp 20 ++ "/*+LABEL('vDataColumn.astype')*/ \n" ++
    sp 20 ++ expr ++ " AS " ++ al ++ " \n" ++ sp 16 ++ "FROM " ++ sql ++ " \n" ++
    sp 16 ++ "WHERE " ++ al ++ " IS NOT NULL \n" ++ sp 16 ++ "LIMIT 20"

/-! ### The `astype` resolver -/

/-- Dispatch of `vDCTyping.astype` on `(normalized dtype, current
category)`: decides the transformation template and the final stored
dtype label, issuing the format-inference probe when needed. An error
carries the value of the local `dtype` variable at the raise point
(mirroring the Python variable reassignments). Returns the queries
issued. -/
def chooseTransformation (eng : Engine) (c : VDataColumn) (dtype : String) :
    Except (PyErr × String) (String × String) × List String :=
  if (dtype = "array" ∨ pyStartswith dtype "vmap" = true) ∧ c.category = "text" then
    match (if dtype = "array" then vertica_version_check eng.version [10, 0, 0]
           else Except.ok ()) with
    | Except.error e => (Except.error (e, dtype), [])
    | Except.ok _ =>
      match eng.fetchLongest (biggestStrQuery c.colAlias c.parentSQL) with
      | Except.error m =>
        (Except.error (PyErr.queryError m, dtype),
         [biggestStrQuery c.colAlias c.parentSQL])
      | Except.ok raw =>
        if pyStartswith dtype "vmap" = true then
          if 2 < (pyStrip raw).data.length ∧ pyFirst (pyStrip raw) = '{' ∧
              pyLast (pyStrip raw) = '}' then
            (Except.ok (mapjsonTemplate, "vmap"),
             [biggestStrQuery c.colAlias c.parentSQL])
          else
            (Except.ok (mapDelimitedTemplate (guess_sep (pyStrip raw))
                (headerNames dtype), "vmap"),
             [biggestStrQuery c.colAlias c.parentSQL])
        else
          (Except.ok (stringToArrayTemplate (guess_sep (pyStrip raw))
              (collectionBrackets (pyStrip raw)).1
              (collectionBrackets (pyStrip raw)).2
              (collectionNullElement (pyStrip raw) (guessSepChar (pyStrip raw))),
            "array"),
           [biggestStrQuery c.colAlias c.parentSQL])
  else if (pyStartswith dtype "varchar" = true ∨ pyStartswith dtype "char" = true) ∧
      c.category = "vmap" then
    (Except.ok (maptostringCastTemplate dtype, dtype), [])
  else if dtype = "json" then
    if c.category = "vmap" then
      (Except.ok (maptostringJsonTemplate, "varchar"), [])
    else
      match vertica_version_check eng.version [10, 1, 0] with
      | Except.error e => (Except.error (e, dtype), [])
      | Except.ok _ => (Except.ok (toJsonTemplate, "varchar"), [])
  else
    (Except.ok (plainCastTemplate dtype, dtype), [])

/-- `vDCTyping.astype`: normalize the requested type, choose the
transformation (probing if needed), clean it, substitute the alias into
the template with Python `str.format` (which can itself raise, e.g. on
the stray braces of the brace-bracket array template), run the
validation probe, and only then append `(template, dtype, to_category
dtype)` to the chain; any failure is re-raised as a `ConversionError`
whose message wraps the inner error, the alias and the current value of
`dtype`. -/
def astypeRun (eng : Engine) (c : VDataColumn) (dtypeRaw : String) : AstypeResult :=
  match chooseTransformation eng c (to_sql_dtype dtypeRaw) with
  | (Except.error (e, dAt), qs) =>
    { transf := c.transf,
      res := Except.error (PyErr.conversionError (pyErrMsg e ++
        "\nThe vDataColumn " ++ c.colAlias ++ " can not be converted to " ++ dAt)),
      queries := qs }
  | (Except.ok (t2raw, dfin), qs) =>
    match pyFormat (clean_query t2raw) c.colAlias with
    | Except.error e =>
      { transf := c.transf,
        res := Except.error (PyErr.conversionError (pyErrMsg e ++
          "\nThe vDataColumn " ++ c.colAlias ++ " can not be converted to " ++ dfin)),
        queries := qs }
    | Except.ok expr =>
      match eng.validate (validationQuery expr c.colAlias c.parentSQL) with
      | Except.error m =>
        { transf := c.transf,
          res := Except.error (PyErr.conversionError (m ++
            "\nThe vDataColumn " ++ c.colAlias ++ " can not be converted to " ++ dfin)),
          queries := qs ++ [validationQuery expr c.colAlias c.parentSQL] }
      | Except.ok _ =>
        { transf := c.transf ++ [⟨clean_query t2raw, dfin, to_category dfin⟩],
          res := Except.ok (),
          queries := qs ++ [validationQuery expr c.colAlias c.parentSQL] }

/-- Does the outcome carry a raised `ConversionError`? -/
def isConversionErrorRes : Except PyErr Unit → Bool
  | Except.error (PyErr.conversionError _) => true
  | _ => false

/-- Does the outcome carry a bare `UnsupportedEngineVersion` error? -/
def isVersionErrorRes : Except PyErr Unit → Bool
  | Except.error (PyErr.versionError _) => true
  | _ => false

/-! ### Concrete fixtures -/

/-- A text-category column, as loaded from a `varchar(20)` relation column. -/
def colText : VDataColumn := ⟨"x", "public.t", [⟨"\x7b\x7d", "varchar(20)", "text"⟩]⟩

/-- A vmap-category column named `age`. -/
def colVmap : VDataColumn := ⟨"age", "public.t", [⟨"\x7b\x7d", "vmap", "vmap"⟩]⟩

/-- A second column with the same last entry as `colVmap` but another alias
and relation. -/
def colVmap2 : VDataColumn := ⟨"other", "public.u", [⟨"\x7b\x7d", "vmap", "vmap"⟩]⟩

/-- An int-category column named `price`. -/
def colInt : VDataColumn := ⟨"price", "public.sales", [⟨"\x7b\x7d", "int", "int"⟩]⟩

/-- A recent engine that answers the format probe with `sample` and accepts
every validation probe. -/
def engOK (sample : String) : Engine :=
  ⟨(12, 0, 2), fun _ => Except.ok sample, fun _ => Except.ok ()⟩

/-- A recent engine that rejects every validation probe. -/
def engFailValidate : Engine :=
  ⟨(12, 0, 2), fun _ => Except.ok "abc", fun _ => Except.error "Syntax error at or near"⟩

/-- An engine reporting version `(9, 3, 0)`. -/
def engOld : Engine :=
  ⟨(9, 3, 0), fun _ => Except.ok "1,2,3", fun _ => Except.ok ()⟩

/-! ### Helper lemmas -/

/-- `String.append` acts as list append on the underlying data. -/
theorem strData_append (a b : String) : (a ++ b).data = a.data ++ b.data := by
  cases a; cases b; rfl

/-- Rebuilding a string from its data is the identity. -/
theorem strMk_data (s : String) : String.mk s.data = s := by
  cases s; rfl

/-- Unfolding of the Python prefix test. -/
theorem pyStartswith_iff (s pre : String) :
    pyStartswith s pre = true ↔ s.data.take pre.data.length = pre.data := by
  simp [pyStartswith]

/-- Two prefix patterns that disagree on their common initial segment cannot
both be prefixes of the same string. -/
theorem pyStartswith_excl (s p q : String)
    (h : p.data.take q.data.length ≠ q.data.take p.data.length)
    (hq : pyStartswith s q = true) : pyStartswith s p = false := by
  apply Bool.eq_false_iff.mpr
  intro hp
  apply h
  have hq' : s.data.take q.data.length = q.data := (pyStartswith_iff s q).mp hq
  have hp' : s.data.take p.data.length = p.data := (pyStartswith_iff s p).mp hp
  calc p.data.take q.data.length
      = (s.data.take p.data.length).take q.data.length := by rw [hp']
    _ = s.data.take (min q.data.length p.data.length) := by rw [List.take_take]
    _ = s.data.take (min p.data.length q.data.length) := by rw [Nat.min_comm]
    _ = (s.data.take q.data.length).take p.data.length := by rw [List.take_take]
    _ = q.data.take p.data.length := by rw [hq']

/-- The classification table sends every `varchar`/`char`-family label to
the `text` category. -/
theorem to_category_char_family (x : String)
    (hd : pyStartswith x "varchar" = true ∨ pyStartswith x "char" = true) :
    to_category x = "text" := by
  have excl : ∀ p : String,
      p.data.take ("varchar" : String).data.length ≠
        ("varchar" : String).data.take p.data.length →
      p.data.take ("char" : String).data.length ≠
        ("char" : String).data.take p.data.length →
      pyStartswith x p = false := by
    intro p hv hc
    rcases hd with h | h
    · exact pyStartswith_excl x p "varchar" hv h
    · exact pyStartswith_excl x p "char" hc h
  have hne : ∀ y : String, pyStartswith y "varchar" = false →
      pyStartswith y "char" = false → x ≠ y := by
    intro y hyv hyc hxy
    rcases hd with h | h
    · rw [hxy, hyv] at h; exact Bool.noConfusion h
    · rw [hxy, hyc] at h; exact Bool.noConfusion h
  have h1 : pyStartswith x "vmap" = false := excl _ (by decide) (by decide)
  have h2 : pyStartswith x "array" = false := excl _ (by decide) (by decide)
  have h3 : pyStartswith x "date" = false := excl _ (by decide) (by decide)
  have h4 : pyStartswith x "timestamp" = false := excl _ (by decide) (by decide)
  have h5 : x ≠ "time" := hne _ (by decide) (by decide)
  have h6 : x ≠ "smalldatetime" := hne _ (by decide) (by decide)
  have h7 : pyStartswith x "interval" = false := excl _ (by decide) (by decide)
  have h8 : pyStartswith x "int" = false := excl _ (by decide) (by decide)
  have h9 : pyStartswith x "bool" = false := excl _ (by decide) (by decide)
  have h10 : pyStartswith x "bigint" = false := excl _ (by decide) (by decide)
  have h11 : pyStartswith x "smallint" = false := excl _ (by decide) (by decide)
  have h12 : pyStartswith x "tinyint" = false := excl _ (by decide) (by decide)
  have h13 : pyStartswith x "float" = false := excl _ (by decide) (by decide)
  have h14 : pyStartswith x "double" = false := excl _ (by decide) (by decide)
  have h15 : pyStartswith x "numeric" = false := excl _ (by decide) (by decide)
  have h16 : pyStartswith x "decimal" = false := excl _ (by decide) (by decide)
  have h17 : pyStartswith x "real" = false := excl _ (by decide) (by decide)
  have h18 : pyStartswith x "money" = false := excl _ (by decide) (by decide)
  unfold to_category
  rw [if_neg (by simp [h1]), if_neg (by simp [h2]),
    if_neg (by simp [h3, h4, h5, h6, h7]),
    if_neg (by simp [h8, h9, h10, h11, h12]),
    if_neg (by simp [h13, h14, h15, h16, h17, h18]),
    if_pos (by tauto)]

/-- The inferred separator is one of the three candidates. -/
theorem guessSepChar_mem (s : String) :
    guessSepChar s = ',' ∨ guessSepChar s = '|' ∨ guessSepChar s = ';' := by
  unfold guessSepChar
  repeat' split
  · exact Or.inl rfl
  · exact Or.inl rfl
  · exact Or.inr (Or.inl rfl)
  · exact Or.inr (Or.inr rfl)

/-- The inferred separator's occurrence count is maximal among candidates. -/
theorem guessSepChar_count_max (s : String) (ch : Char) (h : ch ∈ sepCandidates) :
    countChar s ch ≤ countChar s (guessSepChar s) := by
  have hch : ch = ',' ∨ ch = '|' ∨ ch = ';' := by
    simpa [sepCandidates] using h
  have hle : countChar s ch ≤ maxSepCount s := by
    rcases hch with rfl | rfl | rfl
    · exact le_max_left _ _
    · exact le_trans (le_max_left _ _) (le_max_right _ _)
    · exact le_trans (le_max_right _ _) (le_max_right _ _)
  have hcase : maxSepCount s = countChar s ',' ∨ maxSepCount s = countChar s '|' ∨
      maxSepCount s = countChar s ';' := by
    rcases max_choice (countChar s ',') (max (countChar s '|') (countChar s ';')) with
      h1 | h1
    · exact Or.inl h1
    · rcases max_choice (countChar s '|') (countChar s ';') with h2 | h2
      · exact Or.inr (Or.inl (h1.trans h2))
      · exact Or.inr (Or.inr (h1.trans h2))
  unfold guessSepChar
  split
  · next h0 =>
      have : countChar s ch = 0 := Nat.le_zero.mp (h0 ▸ hle)
      simp [this]
  · split
    · next hc => omega
    · split
      · next hc => omega
      · next h0 hc1 hc2 =>
          rcases hcase with he | he | he
          · exact absurd he.symm hc1
          · exact absurd he.symm hc2
          · omega

/-- On a dispatch error, `astype` leaves the chain alone and raises the
wrapping `ConversionError`. -/
theorem astypeRun_choose_error (eng : Engine) (c : VDataColumn) (dtypeRaw : String)
    (e : PyErr) (dAt : String) (qs : List String)
    (hch : chooseTransformation eng c (to_sql_dtype dtypeRaw) =
      (Except.error (e, dAt), qs)) :
    astypeRun eng c dtypeRaw =
      { transf := c.transf,
        res := Except.error (PyErr.conversionError (pyErrMsg e ++
          "\nThe vDataColumn " ++ c.colAlias ++ " can not be converted to " ++ dAt)),
        queries := qs } := by
  unfold astypeRun
  rw [hch]

/-- When `str.format` raises on the cleaned template, `astype` leaves the
chain alone, issues no validation probe, and raises the wrapping
`ConversionError`. -/
theorem astypeRun_format_error (eng : Engine) (c : VDataColumn) (dtypeRaw : String)
    (t2raw dfin : String) (qs : List String) (e : PyErr)
    (hch : chooseTransformation eng c (to_sql_dtype dtypeRaw) =
      (Except.ok (t2raw, dfin), qs))
    (hfmt : pyFormat (clean_query t2raw) c.colAlias = Except.error e) :
    astypeRun eng c dtypeRaw =
      { transf := c.transf,
        res := Except.error (PyErr.conversionError (pyErrMsg e ++
          "\nThe vDataColumn " ++ c.colAlias ++ " can not be converted to " ++ dfin)),
        queries := qs } := by
  unfold astypeRun
  rw [hch]
  simp only []
  rw [hfmt]

/-- On a rejected validation probe, `astype` leaves the chain alone and
raises the wrapping `ConversionError` carrying the engine's error text. -/
theorem astypeRun_validate_error (eng : Engine) (c : VDataColumn) (dtypeRaw : String)
    (t2raw dfin : String) (qs : List String) (expr m : String)
    (hch : chooseTransformation eng c (to_sql_dtype dtypeRaw) =
      (Except.ok (t2raw, dfin), qs))
    (hfmt : pyFormat (clean_query t2raw) c.colAlias = Except.ok expr)
    (hv : eng.validate (validationQuery expr c.colAlias c.parentSQL) =
      Except.error m) :
    astypeRun eng c dtypeRaw =
      { transf := c.transf,
        res := Except.error (PyErr.conversionError (m ++
          "\nThe vDataColumn " ++ c.colAlias ++ " can not be converted to " ++ dfin)),
        queries := qs ++ [validationQuery expr c.colAlias c.parentSQL] } := by
  unfold astypeRun
  rw [hch]
  simp only []
  rw [hfmt]
  simp only []
  rw [hv]

/-- On an accepted validation probe, `astype` appends exactly the cleaned
template with the final label and its classification. -/
theorem astypeRun_validate_ok (eng : Engine) (c : VDataColumn) (dtypeRaw : String)
    (t2raw dfin : String) (qs : List String) (expr : String)
    (hch : chooseTransformation eng c (to_sql_dtype dtypeRaw) =
      (Except.ok (t2raw, dfin), qs))
    (hfmt : pyFormat (clean_query t2raw) c.colAlias = Except.ok expr)
    (hv : eng.validate (validationQuery expr c.colAlias c.parentSQL) =
      Except.ok ()) :
    astypeRun eng c dtypeRaw =
      { transf := c.transf ++ [⟨clean_query t2raw, dfin, to_category dfin⟩],
        res := Except.ok (),
        queries := qs ++ [validationQuery expr c.colAlias c.parentSQL] } := by
  unfold astypeRun
  rw [hch]
  simp only []
  rw [hfmt]
  simp only []
  rw [hv]

/-! ### Claim theorems -/

/-- Claim C8: the category predicates `isnum`, `isbool`, `isdate`,
`isarray` and `isvmap` are pure reads derived from the column's category
and declared type: they are total functions (never fail), take no engine
argument (issue no query, mutate nothing), and depend only on the chain's
last entry; `isvmap` moreover coincides with the chain-category test
under the spec-modelled pure flex helper. -/
theorem C8_pure_predicates (c₁ c₂ : VDataColumn) (h : c₁.lastEntry = c₂.lastEntry) :
    c₁.isnum = c₂.isnum ∧ c₁.isbool = c₂.isbool ∧ c₁.isdate = c₂.isdate ∧
    c₁.isarray = c₂.isarray ∧ c₁.isvmap = c₂.isvmap ∧
    c₁.isvmap = (c₁.category == "vmap") := by
  simp [VDataColumn.isnum, VDataColumn.isbool, VDataColumn.isdate,
    VDataColumn.isarray, VDataColumn.isvmap, VDataColumn.category,
    VDataColumn.ctype, flex_isvmap, h]

/-- Witness for C8 at two concrete columns sharing a last entry. -/
theorem C8_pure_predicates_witness :
    colVmap.isnum = colVmap2.isnum ∧ colVmap.isbool = colVmap2.isbool ∧
    colVmap.isdate = colVmap2.isdate ∧ colVmap.isarray = colVmap2.isarray ∧
    colVmap.isvmap = colVmap2.isvmap ∧
    colVmap.isvmap = (colVmap.category == "vmap") :=
  C8_pure_predicates colVmap colVmap2 rfl

/-- Every branch of the dispatch issues at most one (format-inference)
query. -/
theorem chooseTransformation_queries_le (eng : Engine) (c : VDataColumn)
    (d : String) : (chooseTransformation eng c d).2.length ≤ 1 := by
  unfold chooseTransformation
  repeat' split
  all_goals simp

/-- Outside the array/vmap-on-text branch, the dispatch issues no query. -/
theorem chooseTransformation_no_probe (eng : Engine) (c : VDataColumn) (d : String)
    (h : ¬ ((d = "array" ∨ pyStartswith d "vmap" = true) ∧ c.category = "text")) :
    (chooseTransformation eng c d).2 = [] := by
  unfold chooseTransformation
  rw [if_neg h]
  repeat' split
  all_goals rfl

/-- Claim C9: every `astype` call issues at most two engine round trips
(optional format-inference probe, then at most one validation probe),
never a third — also on the paths where `str.format` raises and no
validation probe is issued — and outside array/vmap targets on a
text-category column, at most one. -/
theorem C9_two_round_trips (eng : Engine) (c : VDataColumn) (dtypeRaw : String) :
    (astypeRun eng c dtypeRaw).queries.length ≤ 2 ∧
    (¬ ((to_sql_dtype dtypeRaw = "array" ∨
          pyStartswith (to_sql_dtype dtypeRaw) "vmap" = true) ∧ c.category = "text") →
      (astypeRun eng c dtypeRaw).queries.length ≤ 1) := by
  have hle := chooseTransformation_queries_le eng c (to_sql_dtype dtypeRaw)
  have hnp := chooseTransformation_no_probe eng c (to_sql_dtype dtypeRaw)
  rcases hch : chooseTransformation eng c (to_sql_dtype dtypeRaw) with ⟨r, qs⟩
  rw [hch] at hle
  simp only at hle
  rcases r with ⟨e0, dAt⟩ | ⟨t2raw, dfin⟩
  · rw [astypeRun_choose_error eng c dtypeRaw e0 dAt qs hch]
    constructor
    · simp only
      omega
    · intro h
      have h0 := hnp h
      rw [hch] at h0
      simp only at h0
      simp [h0]
  · cases hfmt : pyFormat (clean_query t2raw) c.colAlias with
    | error e =>
      rw [astypeRun_format_error eng c dtypeRaw t2raw dfin qs e hch hfmt]
      constructor
      · simp only
        omega
      · intro h
        have h0 := hnp h
        rw [hch] at h0
        simp only at h0
        simp [h0]
    | ok expr =>
      cases hv : eng.validate (validationQuery expr c.colAlias c.parentSQL) with
      | error m =>
        rw [astypeRun_validate_error eng c dtypeRaw t2raw dfin qs expr m hch hfmt hv]
        constructor
        · simp only [List.length_append]
          simp
          omega
        · intro h
          have h0 := hnp h
          rw [hch] at h0
          simp only at h0
          simp [h0]
      | ok u =>
        cases u
        rw [astypeRun_validate_ok eng c dtypeRaw t2raw dfin qs expr hch hfmt hv]
        constructor
        · simp only [List.length_append]
          simp
          omega
        · intro h
          have h0 := hnp h
          rw [hch] at h0
          simp only at h0
          simp [h0]

/-- Witness for C9 at a concrete cast. -/
theorem C9_two_round_trips_witness :
    (astypeRun (engOK "") colInt "int").queries.length ≤ 2 ∧
    (astypeRun (engOK "") colInt "int").queries.length ≤ 1 :=
  ⟨(C9_two_round_trips (engOK "") colInt "int").1,
   (C9_two_round_trips (engOK "") colInt "int").2 (by decide)⟩

/-- Claim C1 (amended): a failed `cast` (format-inference probe, version
check, template formatting, or validation probe raising) leaves the
chain exactly as it was — same length, same last entry; a successful
`cast` appends exactly one entry (only after the validation probe
succeeds), whose category is the classification table's result for the
appended declared-type label (the requested type, except that compound
`vmap(...)` requests store `vmap` and `json` stores `varchar`). -/
theorem C1_astype_append_only (eng : Engine) (c : VDataColumn) (dtypeRaw : String) :
    (∀ e, (astypeRun eng c dtypeRaw).res = Except.error e →
      (astypeRun eng c dtypeRaw).transf = c.transf) ∧
    ((astypeRun eng c dtypeRaw).res = Except.ok () →
      (astypeRun eng c dtypeRaw).transf =
        c.transf ++ [(astypeRun eng c dtypeRaw).transf.getLastD defEntry] ∧
      ((astypeRun eng c dtypeRaw).transf.getLastD defEntry).cat =
        to_category ((astypeRun eng c dtypeRaw).transf.getLastD defEntry).dtype ∧
      (astypeRun eng c dtypeRaw).transf.length = c.transf.length + 1) := by
  rcases hch : chooseTransformation eng c (to_sql_dtype dtypeRaw) with ⟨r, qs⟩
  rcases r with ⟨e0, dAt⟩ | ⟨t2raw, dfin⟩
  · rw [astypeRun_choose_error eng c dtypeRaw e0 dAt qs hch]
    exact ⟨fun e _ => rfl, fun hok => by simp at hok⟩
  · cases hfmt : pyFormat (clean_query t2raw) c.colAlias with
    | error e =>
      rw [astypeRun_format_error eng c dtypeRaw t2raw dfin qs e hch hfmt]
      exact ⟨fun e' _ => rfl, fun hok => by simp at hok⟩
    | ok expr =>
      cases hv : eng.validate (validationQuery expr c.colAlias c.parentSQL) with
      | error m =>
        rw [astypeRun_validate_error eng c dtypeRaw t2raw dfin qs expr m hch hfmt hv]
        exact ⟨fun e' _ => rfl, fun hok => by simp at hok⟩
      | ok u =>
        cases u
        rw [astypeRun_validate_ok eng c dtypeRaw t2raw dfin qs expr hch hfmt hv]
        refine ⟨fun e' he => by simp at he, fun _ => ?_⟩
        simp [List.getLastD_concat]

/-- Witness for C1 at a concrete successful cast. -/
theorem C1_astype_append_only_witness :
    (astypeRun (engOK "") colInt "varchar").transf =
      colInt.transf ++
        [(astypeRun (engOK "") colInt "varchar").transf.getLastD defEntry] ∧
    ((astypeRun (engOK "") colInt "varchar").transf.getLastD defEntry).cat =
      to_category
        (((astypeRun (engOK "") colInt "varchar").transf.getLastD defEntry).dtype) ∧
    (astypeRun (engOK "") colInt "varchar").transf.length =
      colInt.transf.length + 1 :=
  (C1_astype_append_only (engOK "") colInt "varchar").2 rfl

/-- Counterexample to C1 as stated: a successful `cast` of a vmap-category
column to `json` appends an entry whose category is `text` (the
classification of the stored label `varchar`), not the classification
table's result for the requested type `json` (which is `undefined`). -/
theorem C1_category_table_counterexample :
    (astypeRun (engOK "") colVmap "json").res = Except.ok () ∧
    ((astypeRun (engOK "") colVmap "json").transf.getLastD defEntry).cat ≠
      to_category "json" :=
  ⟨rfl, by decide⟩

/-- Claim C2 (amended): casting a text-category column to `array` on an
engine reporting version `(9, 3, 0)` fails before any probe query is
issued (the query trace is empty), and the surfaced error is the
`ConversionError` wrapper around the `UnsupportedEngineVersion` failure
of the 10.0.0 version gate. -/
theorem C2_version_gate_amended (eng : Engine) (c : VDataColumn)
    (h1 : c.category = "text") (h2 : eng.version = (9, 3, 0)) :
    (astypeRun eng c "array").res = Except.error (PyErr.conversionError
      (versionErrMsg 10 0 0 ++
        "\nThe vDataColumn " ++ c.colAlias ++ " can not be converted to " ++ "array")) ∧
    (astypeRun eng c "array").queries = [] := by
  have hch : chooseTransformation eng c (to_sql_dtype "array") =
      (Except.error (PyErr.versionError (versionErrMsg 10 0 0), "array"), []) := by
    rw [show to_sql_dtype "array" = "array" from rfl]
    unfold chooseTransformation
    rw [if_pos ⟨Or.inl rfl, h1⟩, if_pos rfl, h2]
    rfl
  rw [astypeRun_choose_error eng c "array" (PyErr.versionError (versionErrMsg 10 0 0))
    "array" [] hch]
  exact ⟨rfl, rfl⟩

/-- Witness for C2 at a concrete old engine and text column. -/
theorem C2_version_gate_witness :
    (astypeRun engOld colText "array").res = Except.error (PyErr.conversionError
      (versionErrMsg 10 0 0 ++
        "\nThe vDataColumn " ++ colText.colAlias ++ " can not be converted to " ++ "array")) ∧
    (astypeRun engOld colText "array").queries = [] :=
  C2_version_gate_amended engOld colText rfl rfl

/-- Counterexample to C2 as stated: on the version-gated cast the raised
error's kind is `ConversionError` (wrapping the version failure), not a
bare `UnsupportedEngineVersion`; the trace is nevertheless empty. -/
theorem C2_error_kind_counterexample :
    isVersionErrorRes (astypeRun engOld colText "array").res = false ∧
    isConversionErrorRes (astypeRun engOld colText "array").res = true ∧
    (astypeRun engOld colText "array").queries = [] :=
  ⟨rfl, rfl, rfl⟩

/-- Dispatch of a `json` request on a vmap-category column. -/
theorem chooseTransformation_json_vmap (eng : Engine) (c : VDataColumn)
    (h : c.category = "vmap") :
    chooseTransformation eng c "json" =
      (Except.ok (maptostringJsonTemplate, "varchar"), []) := by
  unfold chooseTransformation
  rw [if_neg (fun hh => absurd hh.1 (by decide)),
    if_neg (fun hh => absurd hh.1 (by decide)), if_pos rfl, if_pos h]

/-- Dispatch of a `json` request on a non-vmap column: gated by the
10.1.0 version check, then `TO_JSON`. -/
theorem chooseTransformation_json_other (eng : Engine) (c : VDataColumn)
    (h : ¬ c.category = "vmap") :
    chooseTransformation eng c "json" =
      (match vertica_version_check eng.version [10, 1, 0] with
       | Except.error e => (Except.error (e, "json"), [])
       | Except.ok _ => (Except.ok (toJsonTemplate, "varchar"), [])) := by
  unfold chooseTransformation
  rw [if_neg (fun hh => absurd hh.1 (by decide)),
    if_neg (fun hh => absurd hh.1 (by decide)), if_pos rfl, if_neg h]

/-- Dispatch of a `varchar`/`char`-family request on a vmap-category
column. -/
theorem chooseTransformation_char_vmap (eng : Engine) (c : VDataColumn) (d : String)
    (hcat : c.category = "vmap")
    (hd : pyStartswith d "varchar" = true ∨ pyStartswith d "char" = true) :
    chooseTransformation eng c d = (Except.ok (maptostringCastTemplate d, d), []) := by
  unfold chooseTransformation
  rw [if_neg (fun hh => by rw [hcat] at hh; exact absurd hh.2 (by decide)),
    if_pos ⟨hd, hcat⟩]

/-- Claim C3: a successful cast with requested type exactly `json` stores
declared type `varchar`; on a vmap-category column the appended
expression is the canonical-JSON map-to-string conversion and the
outcome does not depend on the engine version; otherwise the appended
expression is the generic `TO_JSON` conversion and the 10.1.0 version
gate must have passed. -/
theorem C3_json_cast (eng : Engine) (c : VDataColumn)
    (hok : (astypeRun eng c "json").res = Except.ok ()) :
    ((astypeRun eng c "json").transf.getLastD defEntry).dtype = "varchar" ∧
    (c.category = "vmap" →
      ((astypeRun eng c "json").transf.getLastD defEntry).expr =
        "MAPTOSTRING(\x7b\x7d USING PARAMETERS canonical_json=true)" ∧
      (∀ v, astypeRun { eng with version := v } c "json" = astypeRun eng c "json")) ∧
    (¬ c.category = "vmap" →
      ((astypeRun eng c "json").transf.getLastD defEntry).expr = "TO_JSON(\x7b\x7d)" ∧
      vertica_version_check eng.version [10, 1, 0] = Except.ok ()) := by
  by_cases hcat : c.category = "vmap"
  · have hch : chooseTransformation eng c (to_sql_dtype "json") =
        (Except.ok (maptostringJsonTemplate, "varchar"), []) := by
      rw [show to_sql_dtype "json" = "json" from rfl]
      exact chooseTransformation_json_vmap eng c hcat
    cases hfmt : pyFormat (clean_query maptostringJsonTemplate) c.colAlias with
    | error e =>
      rw [astypeRun_format_error eng c "json" maptostringJsonTemplate "varchar"
        [] e hch hfmt] at hok
      simp at hok
    | ok expr =>
      cases hv : eng.validate (validationQuery expr c.colAlias c.parentSQL) with
      | error m =>
        rw [astypeRun_validate_error eng c "json" maptostringJsonTemplate "varchar"
          [] expr m hch hfmt hv] at hok
        simp at hok
      | ok u =>
        cases u
        rw [astypeRun_validate_ok eng c "json" maptostringJsonTemplate "varchar"
          [] expr hch hfmt hv]
        refine ⟨by simp [List.getLastD_concat], fun _ => ⟨?_, ?_⟩,
          fun hn => absurd hcat hn⟩
        · simp [List.getLastD_concat]
          rfl
        · intro v
          have hch2 : chooseTransformation { eng with version := v } c
              (to_sql_dtype "json") =
              (Except.ok (maptostringJsonTemplate, "varchar"), []) := by
            rw [show to_sql_dtype "json" = "json" from rfl]
            exact chooseTransformation_json_vmap { eng with version := v } c hcat
          exact astypeRun_validate_ok { eng with version := v } c "json"
            maptostringJsonTemplate "varchar" [] expr hch2 hfmt hv
  · have hch0 := chooseTransformation_json_other eng c hcat
    cases hvv : vertica_version_check eng.version [10, 1, 0] with
    | error e =>
      have hch : chooseTransformation eng c (to_sql_dtype "json") =
          (Except.error (e, "json"), []) := by
        rw [show to_sql_dtype "json" = "json" from rfl, hch0, hvv]
      rw [astypeRun_choose_error eng c "json" e "json" [] hch] at hok
      simp at hok
    | ok u =>
      cases u
      have hch : chooseTransformation eng c (to_sql_dtype "json") =
          (Except.ok (toJsonTemplate, "varchar"), []) := by
        rw [show to_sql_dtype "json" = "json" from rfl, hch0, hvv]
      cases hfmt : pyFormat (clean_query toJsonTemplate) c.colAlias with
      | error e =>
        rw [astypeRun_format_error eng c "json" toJsonTemplate "varchar"
          [] e hch hfmt] at hok
        simp at hok
      | ok expr =>
        cases hv : eng.validate (validationQuery expr c.colAlias c.parentSQL) with
        | error m =>
          rw [astypeRun_validate_error eng c "json" toJsonTemplate "varchar"
            [] expr m hch hfmt hv] at hok
          simp at hok
        | ok u2 =>
          cases u2
          rw [astypeRun_validate_ok eng c "json" toJsonTemplate "varchar" []
            expr hch hfmt hv]
          refine ⟨by simp [List.getLastD_concat], fun hv' => absurd hv' hcat,
            fun _ => ⟨?_, rfl⟩⟩
          simp [List.getLastD_concat]
          rfl

/-- Witness for C3 at a concrete vmap column. -/
theorem C3_json_cast_witness :
    ((astypeRun (engOK "") colVmap "json").transf.getLastD defEntry).dtype =
      "varchar" ∧
    ((astypeRun (engOK "") colVmap "json").transf.getLastD defEntry).expr =
      "MAPTOSTRING(\x7b\x7d USING PARAMETERS canonical_json=true)" :=
  ⟨(C3_json_cast (engOK "") colVmap rfl).1,
   ((C3_json_cast (engOK "") colVmap rfl).2.1 rfl).1⟩

/-- Claim C4 (amended): when the dispatch yields a transformation, the
single validation probe behaves as follows. If Python `str.format`
succeeds on the cleaned template, the probe with exactly the source's
bounded shape (`SELECT /*+LABEL('vDataColumn.astype')*/ <expression> AS
<column> FROM <table> WHERE <column> IS NOT NULL LIMIT 20`) is executed
as the last query before any chain mutation, and an engine rejection
fails the cast with a ConversionError carrying the engine error text,
the column alias and the final declared-type label (the requested type
except for the `json`→`varchar` and compound-`vmap`→`vmap`
reassignments), leaving the chain unchanged. If the template does not
format — as with the stray braces of the brace-bracket array template —
the cast fails with the wrapped formatting error before any validation
query is issued, also leaving the chain unchanged. -/
theorem C4_validation_probe_amended (eng : Engine) (c : VDataColumn)
    (dtypeRaw t2raw dfin : String) (qs : List String)
    (hch : chooseTransformation eng c (to_sql_dtype dtypeRaw) =
      (Except.ok (t2raw, dfin), qs)) :
    (∀ expr, pyFormat (clean_query t2raw) c.colAlias = Except.ok expr →
      (astypeRun eng c dtypeRaw).queries =
        qs ++ [validationQuery expr c.colAlias c.parentSQL] ∧
      validationQuery expr c.colAlias c.parentSQL =
        "\n" ++ sp 16 ++ "SELECT \n" ++ sp 20 ++
          "/*+LABEL('vDataColumn.astype')*/ \n" ++ sp 20 ++ expr ++ " AS " ++
          c.colAlias ++ " \n" ++ sp 16 ++ "FROM " ++ c.parentSQL ++ " \n" ++
          sp 16 ++ "WHERE " ++ c.colAlias ++ " IS NOT NULL \n" ++ sp 16 ++
          "LIMIT 20" ∧
      (∀ m, eng.validate (validationQuery expr c.colAlias c.parentSQL) =
          Except.error m →
        (astypeRun eng c dtypeRaw).res = Except.error (PyErr.conversionError
          (m ++ "\nThe vDataColumn " ++ c.colAlias ++
            " can not be converted to " ++ dfin)) ∧
        (astypeRun eng c dtypeRaw).transf = c.transf)) ∧
    (∀ e, pyFormat (clean_query t2raw) c.colAlias = Except.error e →
      (astypeRun eng c dtypeRaw).queries = qs ∧
      (astypeRun eng c dtypeRaw).res = Except.error (PyErr.conversionError
        (pyErrMsg e ++ "\nThe vDataColumn " ++ c.colAlias ++
          " can not be converted to " ++ dfin)) ∧
      (astypeRun eng c dtypeRaw).transf = c.transf) := by
  constructor
  · intro expr hfmt
    refine ⟨?_, rfl, ?_⟩
    · cases hv : eng.validate (validationQuery expr c.colAlias c.parentSQL) with
      | error m =>
        rw [astypeRun_validate_error eng c dtypeRaw t2raw dfin qs expr m hch hfmt hv]
      | ok u =>
        cases u
        rw [astypeRun_validate_ok eng c dtypeRaw t2raw dfin qs expr hch hfmt hv]
    · intro m hv
      rw [astypeRun_validate_error eng c dtypeRaw t2raw dfin qs expr m hch hfmt hv]
      exact ⟨rfl, rfl⟩
  · intro e hfmt
    rw [astypeRun_format_error eng c dtypeRaw t2raw dfin qs e hch hfmt]
    exact ⟨rfl, rfl, rfl⟩

/-- Witness for C4: a rejected plain cast runs the probe and reports the
engine text; a brace-bracket array cast fails at formatting with no
validation query. -/
theorem C4_validation_probe_witness :
    (astypeRun engFailValidate colInt "int").queries =
      [] ++ [validationQuery "price::int" "price" "public.sales"] ∧
    (astypeRun engFailValidate colInt "int").res = Except.error
      (PyErr.conversionError ("Syntax error at or near" ++
        "\nThe vDataColumn " ++ "price" ++ " can not be converted to " ++ "int")) ∧
    (astypeRun engFailValidate colInt "int").transf = colInt.transf ∧
    (astypeRun (engOK "\x7b1,2,3\x7d") colText "array").queries =
      [biggestStrQuery "x" "public.t"] ∧
    (astypeRun (engOK "\x7b1,2,3\x7d") colText "array").transf = colText.transf := by
  have h := (C4_validation_probe_amended engFailValidate colInt "int"
    (plainCastTemplate "int") "int" [] rfl).1 "price::int" rfl
  have h2 := (C4_validation_probe_amended (engOK "\x7b1,2,3\x7d") colText "array"
    (stringToArrayTemplate "," ", collection_open='\x7b'" ", collection_close='\x7d'" "")
    "array" [biggestStrQuery "x" "public.t"] rfl).2
    (PyErr.formatKeyError "' , collection_close='") rfl
  exact ⟨h.1, (h.2.2 "Syntax error at or near" rfl).1,
    (h.2.2 "Syntax error at or near" rfl).2, h2.1, h2.2.2⟩

/-- Counterexample to C4 as stated: for a rejected `json` cast on a
non-vmap column, the raised Conversion failure carries the engine error
text and the alias but not the requested type `json` — the message names
the reassigned label `varchar` instead. -/
theorem C4_requested_type_counterexample :
    (astypeRun engFailValidate colInt "json").res = Except.error
      (PyErr.conversionError
        "Syntax error at or near\nThe vDataColumn price can not be converted to varchar") ∧
    hasSubStr
      "Syntax error at or near\nThe vDataColumn price can not be converted to varchar"
      "Syntax error at or near" = true ∧
    hasSubStr
      "Syntax error at or near\nThe vDataColumn price can not be converted to varchar"
      "price" = true ∧
    hasSubStr
      "Syntax error at or near\nThe vDataColumn price can not be converted to varchar"
      "json" = false :=
  ⟨rfl, by decide, by decide, by decide⟩

/-- Claim C7: a successful cast of a vmap-category column to a
`varchar`/`char`-family type appends the `MAPTOSTRING(...)::<type>`
conversion, stores the requested character type as declared type, and
the column's category afterwards is `text`. -/
theorem C7_vmap_to_char (eng : Engine) (c : VDataColumn) (d : String)
    (hcat : c.category = "vmap")
    (hd : pyStartswith d "varchar" = true ∨ pyStartswith d "char" = true)
    (hnorm : to_sql_dtype d = d)
    (hok : (astypeRun eng c d).res = Except.ok ()) :
    ((astypeRun eng c d).transf.getLastD defEntry).dtype = d ∧
    ((astypeRun eng c d).transf.getLastD defEntry).cat = "text" ∧
    (VDataColumn.mk c.colAlias c.parentSQL (astypeRun eng c d).transf).category =
      "text" ∧
    ((astypeRun eng c d).transf.getLastD defEntry).expr =
      clean_query (maptostringCastTemplate d) := by
  have hch : chooseTransformation eng c (to_sql_dtype d) =
      (Except.ok (maptostringCastTemplate d, d), []) := by
    rw [hnorm]
    exact chooseTransformation_char_vmap eng c d hcat hd
  cases hfmt : pyFormat (clean_query (maptostringCastTemplate d)) c.colAlias with
  | error e =>
    rw [astypeRun_format_error eng c d (maptostringCastTemplate d) d [] e
      hch hfmt] at hok
    simp at hok
  | ok expr =>
    cases hv : eng.validate (validationQuery expr c.colAlias c.parentSQL) with
    | error m =>
      rw [astypeRun_validate_error eng c d (maptostringCastTemplate d) d [] expr m
        hch hfmt hv] at hok
      simp at hok
    | ok u =>
      cases u
      rw [astypeRun_validate_ok eng c d (maptostringCastTemplate d) d [] expr
        hch hfmt hv]
      have hcatd : to_category d = "text" := to_category_char_family d hd
      exact ⟨by simp [List.getLastD_concat],
        by simp [List.getLastD_concat, hcatd],
        by simp [VDataColumn.category, VDataColumn.lastEntry, List.getLastD_concat,
          hcatd],
        by simp [List.getLastD_concat]⟩

/-- Witness for C7: the vmap column `age` cast to `varchar` yields
category `text`, declared type `varchar`, and the map-to-string
expression. -/
theorem C7_vmap_to_char_witness :
    ((astypeRun (engOK "") colVmap "varchar").transf.getLastD defEntry).dtype =
      "varchar" ∧
    ((astypeRun (engOK "") colVmap "varchar").transf.getLastD defEntry).cat =
      "text" ∧
    (VDataColumn.mk colVmap.colAlias colVmap.parentSQL
      (astypeRun (engOK "") colVmap "varchar").transf).category = "text" ∧
    ((astypeRun (engOK "") colVmap "varchar").transf.getLastD defEntry).expr =
      clean_query (maptostringCastTemplate "varchar") ∧
    (VDataColumn.mk colVmap.colAlias colVmap.parentSQL
      (astypeRun (engOK "") colVmap "varchar").transf).ctype = "varchar" ∧
    hasSubStr ((astypeRun (engOK "") colVmap "varchar").transf.getLastD
      defEntry).expr "MAPTOSTRING" = true := by
  have h := C7_vmap_to_char (engOK "") colVmap "varchar" rfl (Or.inl (by decide))
    rfl rfl
  exact ⟨h.1, h.2.1, h.2.2.1, h.2.2.2, by decide, by decide⟩

/-- Claim C5: separator inference is a deterministic function of the
sample: the chosen candidate is from the fixed priority list, its count
is maximal, ties go to the earlier candidate and a zero-count candidate
is never preferred; `"1,2;3,4"` yields `,`; and the same inferred
separator parameterizes both the delimited-vmap and the array extraction
expressions built by `astype`. -/
theorem C5_separator_inference :
    guess_sep "1,2;3,4" = "," ∧
    (∀ s : String, guessSepChar s = ',' ∨ guessSepChar s = '|' ∨ guessSepChar s = ';') ∧
    (∀ s : String, ∀ ch ∈ sepCandidates, countChar s ch ≤ countChar s (guessSepChar s)) ∧
    (∀ s : String, ¬ maxSepCount s = 0 → countChar s ',' = maxSepCount s →
      guessSepChar s = ',') ∧
    (∀ s : String, ¬ countChar s ',' = maxSepCount s →
      countChar s '|' = maxSepCount s → guessSepChar s = '|') ∧
    (∀ s : String, ¬ countChar s ',' = maxSepCount s →
      ¬ countChar s '|' = maxSepCount s → ¬ maxSepCount s = 0 →
      guessSepChar s = ';') ∧
    ((astypeRun (engOK "1,2;3,4") colText "vmap").transf.getLastD defEntry).expr =
      clean_query (mapDelimitedTemplate (guess_sep "1,2;3,4") (headerNames "vmap")) ∧
    hasSubStr ((astypeRun (engOK "1,2;3,4") colText "vmap").transf.getLastD
      defEntry).expr "delimiter=','" = true ∧
    ((astypeRun (engOK "1,2;3,4") colText "array").transf.getLastD defEntry).expr =
      clean_query (stringToArrayTemplate (guess_sep "1,2;3,4") "" ""
        (collectionNullElement "1,2;3,4" (guessSepChar "1,2;3,4"))) ∧
    hasSubStr ((astypeRun (engOK "1,2;3,4") colText "array").transf.getLastD
      defEntry).expr "collection_delimiter=','" = true := by
  refine ⟨by decide, guessSepChar_mem, guessSepChar_count_max, ?_, ?_, ?_,
    by decide, by decide, by decide, by decide⟩
  · intro s h0 hc
    unfold guessSepChar
    rw [if_neg h0, if_pos hc]
  · intro s hc1 hc2
    have h0 : ¬ maxSepCount s = 0 := by
      intro hz
      have h1 : countChar s ',' ≤ maxSepCount s := le_max_left _ _
      omega
    unfold guessSepChar
    rw [if_neg h0, if_neg hc1, if_pos hc2]
  · intro s hc1 hc2 h0
    unfold guessSepChar
    rw [if_neg h0, if_neg hc1, if_neg hc2]

/-- Witness for C5: the lemma applied to concrete samples. -/
theorem C5_separator_inference_witness :
    guessSepChar "10|20|30" = '|' ∧
    countChar "1,2;3,4" ';' ≤ countChar "1,2;3,4" (guessSepChar "1,2;3,4") :=
  ⟨C5_separator_inference.2.2.2.2.1 "10|20|30" (by decide) (by decide),
   C5_separator_inference.2.2.1 "1,2;3,4" ';' (by decide)⟩

/-- Dispatch of an `array` request on a text-category column with the
version gate passed and the probe answered. -/
theorem chooseTransformation_text_array (eng : Engine) (c : VDataColumn) (s : String)
    (hcat : c.category = "text")
    (hvv : vertica_version_check eng.version [10, 0, 0] = Except.ok ())
    (hf : eng.fetchLongest (biggestStrQuery c.colAlias c.parentSQL) = Except.ok s) :
    chooseTransformation eng c "array" =
      (Except.ok (stringToArrayTemplate (guess_sep (pyStrip s))
          (collectionBrackets (pyStrip s)).1 (collectionBrackets (pyStrip s)).2
          (collectionNullElement (pyStrip s) (guessSepChar (pyStrip s))), "array"),
       [biggestStrQuery c.colAlias c.parentSQL]) := by
  unfold chooseTransformation
  rw [if_pos ⟨Or.inl rfl, hcat⟩, if_pos rfl, hvv, hf]
  exact if_neg (by decide)

/-- Dispatch of a `vmap*` request on a text-category column whose sampled
longest string is not brace-delimited JSON. -/
theorem chooseTransformation_text_vmap (eng : Engine) (c : VDataColumn) (s d : String)
    (hcat : c.category = "text")
    (hd : pyStartswith d "vmap" = true)
    (hda : ¬ d = "array")
    (hf : eng.fetchLongest (biggestStrQuery c.colAlias c.parentSQL) = Except.ok s)
    (hjson : ¬ (2 < (pyStrip s).data.length ∧ pyFirst (pyStrip s) = '{' ∧
      pyLast (pyStrip s) = '}')) :
    chooseTransformation eng c d =
      (Except.ok (mapDelimitedTemplate (guess_sep (pyStrip s)) (headerNames d),
        "vmap"),
       [biggestStrQuery c.colAlias c.parentSQL]) := by
  unfold chooseTransformation
  rw [if_pos ⟨Or.inr hd, hcat⟩, if_neg hda, hf]
  exact (if_pos hd).trans (if_neg hjson)

/-- String append is associative (at the data level). -/
theorem strAppend_assoc (a b c : String) : (a ++ b) ++ c = a ++ (b ++ c) := by
  cases a; cases b; cases c
  show String.mk _ = String.mk _
  rw [List.append_assoc]

/-- A prefix of `a` is a prefix of `a ++ b`. -/
theorem pyStartswith_append_of_prefix (a b p : String)
    (h : a.data.take p.data.length = p.data) (hlen : p.data.length ≤ a.data.length) :
    pyStartswith (a ++ b) p = true := by
  rw [pyStartswith_iff, strData_append, List.take_append_eq_append_take,
    Nat.sub_eq_zero_of_le hlen, List.take_zero, List.append_nil, h]

/-- Claim C10: a successful cast of a text-category column with compound
requested type `vmap(<headers>)` (non-JSON sample) stores exactly the
string `vmap` as declared type — `ctype` afterwards returns `vmap`
without the header list — with category `vmap`, while the header names
parameterize the delimited-map extraction expression. -/
theorem C10_vmap_headers (eng : Engine) (c : VDataColumn) (hs s : String)
    (hcat : c.category = "text")
    (hnorm : to_sql_dtype ("vmap(" ++ hs ++ ")") = "vmap(" ++ hs ++ ")")
    (hf : eng.fetchLongest (biggestStrQuery c.colAlias c.parentSQL) = Except.ok s)
    (hjson : ¬ (2 < (pyStrip s).data.length ∧ pyFirst (pyStrip s) = '{' ∧
      pyLast (pyStrip s) = '}'))
    (hok : (astypeRun eng c ("vmap(" ++ hs ++ ")")).res = Except.ok ()) :
    ((astypeRun eng c ("vmap(" ++ hs ++ ")")).transf.getLastD defEntry).dtype =
      "vmap" ∧
    ((astypeRun eng c ("vmap(" ++ hs ++ ")")).transf.getLastD defEntry).cat =
      "vmap" ∧
    (VDataColumn.mk c.colAlias c.parentSQL
      (astypeRun eng c ("vmap(" ++ hs ++ ")")).transf).ctype = "vmap" ∧
    ((astypeRun eng c ("vmap(" ++ hs ++ ")")).transf.getLastD defEntry).expr =
      clean_query (mapDelimitedTemplate (guess_sep (pyStrip s))
        (", header_names='" ++ hs ++ "'")) := by
  have hassoc : ("vmap(" ++ hs ++ ")") = "vmap(" ++ (hs ++ ")") :=
    strAppend_assoc "vmap(" hs ")"
  have hstart4 : pyStartswith ("vmap(" ++ hs ++ ")") "vmap" = true := by
    rw [hassoc]
    exact pyStartswith_append_of_prefix "vmap(" (hs ++ ")") "vmap"
      (by decide) (by decide)
  have hstart5 : pyStartswith ("vmap(" ++ hs ++ ")") "vmap(" = true := by
    rw [hassoc]
    exact pyStartswith_append_of_prefix "vmap(" (hs ++ ")") "vmap("
      (by decide) (by decide)
  have hdata : ("vmap(" ++ hs ++ ")").data = "vmap(".data ++ (hs.data ++ [')']) := by
    rw [strData_append, strData_append, List.append_assoc]
  have h5 : ("vmap(" : String).data.length = 5 := rfl
  have hlen : 4 < ("vmap(" ++ hs ++ ")").data.length := by
    rw [hdata, List.length_append]
    omega
  have hda : ¬ ("vmap(" ++ hs ++ ")") = "array" := by
    intro he
    have hle : ("vmap(" ++ hs ++ ")").data.length =
        ("array" : String).data.length := by rw [he]
    rw [hdata, List.length_append, h5] at hle
    have h6 : ("array" : String).data.length = 5 := rfl
    have h7 : (hs.data ++ [')']).length = hs.data.length + 1 := by
      rw [List.length_append, List.length_singleton]
    omega
  have hlast : pyLast ("vmap(" ++ hs ++ ")") = ')' := by
    unfold pyLast
    rw [hdata, ← List.append_assoc, List.getLastD_concat]
  have hheader : headerNames ("vmap(" ++ hs ++ ")") =
      ", header_names='" ++ hs ++ "'" := by
    unfold headerNames
    rw [if_pos ⟨hlen, hstart5, hlast⟩, hdata, List.drop_append_eq_append_drop, h5,
      Nat.sub_self, List.drop_zero,
      show ("vmap(" : String).data.drop 5 = [] from rfl, List.nil_append,
      List.dropLast_concat, strMk_data]
  have hch : chooseTransformation eng c (to_sql_dtype ("vmap(" ++ hs ++ ")")) =
      (Except.ok (mapDelimitedTemplate (guess_sep (pyStrip s))
        (", header_names='" ++ hs ++ "'"), "vmap"),
       [biggestStrQuery c.colAlias c.parentSQL]) := by
    rw [hnorm, chooseTransformation_text_vmap eng c s ("vmap(" ++ hs ++ ")") hcat
      hstart4 hda hf hjson, hheader]
  cases hfmt : pyFormat (clean_query (mapDelimitedTemplate (guess_sep (pyStrip s))
      (", header_names='" ++ hs ++ "'"))) c.colAlias with
  | error e =>
    rw [astypeRun_format_error eng c ("vmap(" ++ hs ++ ")")
      (mapDelimitedTemplate (guess_sep (pyStrip s)) (", header_names='" ++ hs ++ "'"))
      "vmap" [biggestStrQuery c.colAlias c.parentSQL] e hch hfmt] at hok
    simp at hok
  | ok expr =>
    cases hv : eng.validate (validationQuery expr c.colAlias c.parentSQL) with
    | error m =>
      rw [astypeRun_validate_error eng c ("vmap(" ++ hs ++ ")")
        (mapDelimitedTemplate (guess_sep (pyStrip s)) (", header_names='" ++ hs ++ "'"))
        "vmap" [biggestStrQuery c.colAlias c.parentSQL] expr m hch hfmt hv] at hok
      simp at hok
    | ok u =>
      cases u
      rw [astypeRun_validate_ok eng c ("vmap(" ++ hs ++ ")")
        (mapDelimitedTemplate (guess_sep (pyStrip s)) (", header_names='" ++ hs ++ "'"))
        "vmap" [biggestStrQuery c.colAlias c.parentSQL] expr hch hfmt hv]
      refine ⟨by simp [List.getLastD_concat], ?_, ?_, by simp [List.getLastD_concat]⟩
      · simp only [List.getLastD_concat]
        rfl
      · simp only [VDataColumn.ctype, VDataColumn.lastEntry, List.getLastD_concat]
        rfl

/-- Witness for C10: headers `age,name,date`, sample `10|20|30`. -/
theorem C10_vmap_headers_witness :
    ((astypeRun (engOK "10|20|30") colText "vmap(age,name,date)").transf.getLastD
      defEntry).dtype = "vmap" ∧
    ((astypeRun (engOK "10|20|30") colText "vmap(age,name,date)").transf.getLastD
      defEntry).cat = "vmap" ∧
    (VDataColumn.mk colText.colAlias colText.parentSQL
      (astypeRun (engOK "10|20|30") colText "vmap(age,name,date)").transf).ctype =
      "vmap" ∧
    hasSubStr ((astypeRun (engOK "10|20|30") colText "vmap(age,name,date)").transf.getLastD
      defEntry).expr "header_names='age,name,date'" = true ∧
    hasSubStr ((astypeRun (engOK "10|20|30") colText "vmap(age,name,date)").transf.getLastD
      defEntry).expr "delimiter='|'" = true := by
  have h := C10_vmap_headers (engOK "10|20|30") colText "age,name,date" "10|20|30"
    rfl rfl rfl (by decide) rfl
  exact ⟨h.1, h.2.1, h.2.2.1, by decide, by decide⟩

/-- Claim C6 (code bug): bracket inference itself behaves as the claim
says — the dispatched extraction template for the brace-delimited sample
`\x7b1,2,3\x7d` carries `collection_open='\x7b'` and
`collection_close='\x7d'`, a parenthesis sample `(1,2,3)` yields a
successful cast whose appended expression carries the parenthesis
parameters, and the bracket-free sample `1,2,3` yields none — but for
every brace-bracketed sample the program then crashes at
`transformation_2.format(self._alias)` (source line 264): the stray
braces raise a `KeyError`, re-raised as `ConversionError`, before the
validation probe is issued, so no entry carrying the brace parameters
can ever be appended. -/
theorem C6_bracket_format_bug :
    chooseTransformation (engOK "\x7b1,2,3\x7d") colText "array" =
      (Except.ok (stringToArrayTemplate "," ", collection_open='\x7b'"
        ", collection_close='\x7d'" "", "array"),
       [biggestStrQuery "x" "public.t"]) ∧
    hasSubStr (clean_query (stringToArrayTemplate "," ", collection_open='\x7b'"
      ", collection_close='\x7d'" "")) "collection_open='\x7b'" = true ∧
    hasSubStr (clean_query (stringToArrayTemplate "," ", collection_open='\x7b'"
      ", collection_close='\x7d'" "")) "collection_close='\x7d'" = true ∧
    (astypeRun (engOK "\x7b1,2,3\x7d") colText "array").res = Except.error
      (PyErr.conversionError ("\"' , collection_close='\"" ++
        "\nThe vDataColumn " ++ "x" ++ " can not be converted to " ++ "array")) ∧
    (astypeRun (engOK "\x7b1,2,3\x7d") colText "array").queries =
      [biggestStrQuery "x" "public.t"] ∧
    (astypeRun (engOK "\x7b1,2,3\x7d") colText "array").transf = colText.transf ∧
    (astypeRun (engOK "(1,2,3)") colText "array").res = Except.ok () ∧
    hasSubStr ((astypeRun (engOK "(1,2,3)") colText "array").transf.getLastD
      defEntry).expr "collection_open='('" = true ∧
    hasSubStr ((astypeRun (engOK "(1,2,3)") colText "array").transf.getLastD
      defEntry).expr "collection_close=')'" = true ∧
    (astypeRun (engOK "1,2,3") colText "array").res = Except.ok () ∧
    hasSubStr ((astypeRun (engOK "1,2,3") colText "array").transf.getLastD
      defEntry).expr "collection_open" = false ∧
    hasSubStr ((astypeRun (engOK "1,2,3") colText "array").transf.getLastD
      defEntry).expr "collection_close" = false :=
  ⟨rfl, by decide, by decide, rfl, rfl, rfl, rfl, by decide, by decide, rfl,
   by decide, by decide⟩
